import Mathlib

/-!
Shallow embedding of the 3d-solar-system repository.

The repository contains three variants of the same program:
* `script.js` (first part of the unnamed source file): planet pivots with a
  fixed per-frame angle increment, and a joystick-driven yaw/pitch camera
  orbiting at radius 30;
* `app.js` (second part of the unnamed source file): planets storing an
  explicit orbit angle, and a joystick-driven phi/theta camera orbiting at
  radius 40;
* `main.js`: a pivot hierarchy (with the Moon nested under the Earth) whose
  angles advance by `orbitSpeed * deltaSeconds * 60` per frame.

Static configuration tables are embedded with exact rational constants;
angles and positions are real numbers.
-/

namespace SolarSpec

noncomputable section

/-- Euclidean distance of a point of 3-space from the origin (the look-at
target of every camera variant sits at the origin). -/
def distFromOrigin (v : ℝ × ℝ × ℝ) : ℝ :=
  Real.sqrt (v.1 ^ 2 + v.2.1 ^ 2 + v.2.2 ^ 2)

namespace ScriptJS

/-- One row of the `planetsData` table of script.js: orbit radius, visual
size, color and per-frame orbit speed. -/
structure PlanetData where
  radius : ℚ
  size : ℚ
  color : ℕ
  speed : ℚ
deriving DecidableEq, Inhabited

/-- The `planetsData` static table of script.js, lines 29-38. -/
def planetsData : List PlanetData :=
  [ ⟨4, 0.3, 0x888888, 0.02⟩,
    ⟨6, 0.5, 0xffa500, 0.015⟩,
    ⟨8, 0.5, 0x0000ff, 0.01⟩,
    ⟨10, 0.4, 0xff0000, 0.008⟩,
    ⟨13, 1.2, 0xffe4b5, 0.006⟩,
    ⟨16, 1.0, 0xf5deb3, 0.005⟩,
    ⟨18, 0.7, 0xadd8e6, 0.004⟩,
    ⟨20, 0.6, 0x4169e1, 0.003⟩ ]

/-- Pivot angle after `n` frames of `obj.pivot.rotation.y += obj.speed`
(script.js line 96), starting from angle `a`. -/
def orbitAngleAfter (a s : ℝ) : ℕ → ℝ
  | 0 => a
  | n + 1 => orbitAngleAfter a s n + s

/-- `camRadius` of script.js line 56. -/
def camRadius : ℝ := 30

/-- The pitch clamp bound `maxPitch = Math.PI / 2 - 0.1` of script.js
line 102. -/
def maxPitch : ℝ := Real.pi / 2 - 0.1

/-- The camera's yaw/pitch state of script.js lines 54-55. -/
structure CamAngles where
  yaw : ℝ
  pitch : ℝ

/-- Initial camera angle state: `yaw = 0`, `pitch = 0`. -/
def initCamAngles : CamAngles := ⟨0, 0⟩

/-- The camera position set before the first frame,
`camera.position.set(0, 5, camRadius)` (script.js line 57). -/
def initCamPos : ℝ × ℝ × ℝ := (0, 5, camRadius)

/-- One frame of the camera update of script.js lines 100-103: yaw and pitch
move by the joystick vector scaled by 0.05, then pitch is clamped to
`[-maxPitch, maxPitch]`. -/
def stepCam (move : ℝ × ℝ) (st : CamAngles) : CamAngles :=
  ⟨st.yaw - move.1 * 0.05,
   max (-maxPitch) (min maxPitch (st.pitch + move.2 * 0.05))⟩

/-- The camera position recomputed each frame from yaw and pitch at radius
`camRadius` (script.js lines 105-107). -/
def camPos (st : CamAngles) : ℝ × ℝ × ℝ :=
  (camRadius * Real.cos st.pitch * Real.sin st.yaw,
   camRadius * Real.sin st.pitch,
   camRadius * Real.cos st.pitch * Real.cos st.yaw)

/-- Camera state after a sequence of per-frame joystick input vectors,
starting from the initial state. -/
def runCam (inputs : List (ℝ × ℝ)) : CamAngles :=
  inputs.foldl (fun st mv => stepCam mv st) initCamAngles

/-- Joystick events of script.js lines 78-88: a move event carrying the
polar angle in radians and the raw distance, or the release event. -/
inductive JoyEvent where
  | move (rad : ℝ) (dist : ℝ)
  | lift

/-- The script.js joystick handlers: a move event sets
`(cos(rad) * d, sin(rad) * d)` with `d = min(dist / 50, 1)`; the release
event zeroes the vector. -/
def handleJoy (st : ℝ × ℝ) : JoyEvent → ℝ × ℝ
  | JoyEvent.move rad dist =>
      (Real.cos rad * min (dist / 50) 1, Real.sin rad * min (dist / 50) 1)
  | JoyEvent.lift => (0, 0)

/-- The stored input vector `(moveX, moveY)` after a sequence of joystick
events, starting from `(0, 0)`. -/
def runJoy (evs : List JoyEvent) : ℝ × ℝ :=
  evs.foldl handleJoy (0, 0)

end ScriptJS

namespace AppJS

/-- One row of the `orbitData` table of app.js: orbit radius, visual size,
per-frame orbit speed and color. -/
structure OrbitRec where
  radius : ℚ
  size : ℚ
  speed : ℚ
  color : ℕ
deriving DecidableEq, Inhabited

/-- The `orbitData` static table of app.js, lines 154-163. -/
def orbitData : List OrbitRec :=
  [ ⟨5, 0.4, 0.02, 0xa8a9ad⟩,
    ⟨7, 0.6, 0.015, 0xe0c16f⟩,
    ⟨9, 0.6, 0.013, 0x2d7dd2⟩,
    ⟨11, 0.4, 0.011, 0xff8040⟩,
    ⟨15, 1.0, 0.008, 0xe5c07b⟩,
    ⟨19, 0.9, 0.006, 0xd7af70⟩,
    ⟨23, 0.8, 0.004, 0x7fb4ff⟩,
    ⟨27, 0.7, 0.003, 0x5875e1⟩ ]

/-- Orbit angle after `n` frames of `ud.angle += ud.speed`
(app.js line 227), starting from angle `a`. -/
def planetAngleAfter (a s : ℝ) : ℕ → ℝ
  | 0 => a
  | n + 1 => planetAngleAfter a s n + s

/-- The planar position a planet is assigned from its orbit angle,
`(orbitRadius * cos(angle), 0, orbitRadius * sin(angle))`
(app.js lines 228-232). -/
def planetPosition (orbitRadius angle : ℝ) : ℝ × ℝ × ℝ :=
  (orbitRadius * Real.cos angle, 0, orbitRadius * Real.sin angle)

/-- One iteration of `updatePlanets` for a single planet (app.js
lines 224-234): the angle advances by the speed, then the position is
recomputed from the new angle. Returns the new angle and the position. -/
def stepPlanet (orbitRadius speed angle : ℝ) : ℝ × (ℝ × ℝ × ℝ) :=
  (angle + speed, planetPosition orbitRadius (angle + speed))

/-- `cameraDistance` of app.js line 216. -/
def cameraDistance : ℝ := 40

/-- The polar clamp bound `maxTheta = Math.PI / 2 - 0.1` of app.js
line 246. -/
def maxTheta : ℝ := Real.pi / 2 - 0.1

/-- The camera's spherical angle state of app.js lines 218-219. -/
structure CamSph where
  phi : ℝ
  theta : ℝ

/-- Initial camera angle state: `phi = 0`, `theta = 0`. -/
def initCamSph : CamSph := ⟨0, 0⟩

/-- One execution of `updateCamera` (app.js lines 240-257) as far as the
angle state is concerned: `phi -= x * 0.05`, `theta -= y * 0.05`, then
theta is clamped to `[minTheta, maxTheta]`. -/
def updateCamera (v : ℝ × ℝ) (st : CamSph) : CamSph :=
  ⟨st.phi - v.1 * 0.05,
   max (-maxTheta) (min maxTheta (st.theta - v.2 * 0.05))⟩

/-- The camera position recomputed by `updateCamera` from the spherical
angles at radius `cameraDistance` (app.js lines 251-255). -/
def camPos (st : CamSph) : ℝ × ℝ × ℝ :=
  (cameraDistance * Real.cos st.theta * Real.sin st.phi,
   cameraDistance * Real.sin st.theta,
   cameraDistance * Real.cos st.theta * Real.cos st.phi)

/-- Camera state after a sequence of per-frame joystick input vectors,
starting from the initial state. -/
def runCam (inputs : List (ℝ × ℝ)) : CamSph :=
  inputs.foldl (fun st v => updateCamera v st) initCamSph

/-- Joystick events of app.js lines 205-213: a move event carrying the
normalized vector components, or the release event. -/
inductive VecEvent where
  | move (vx : ℝ) (vy : ℝ)
  | lift

/-- The app.js joystick handlers: a move event stores the event's vector;
the release event zeroes the stored vector. -/
def handleVec (st : ℝ × ℝ) : VecEvent → ℝ × ℝ
  | VecEvent.move vx vy => (vx, vy)
  | VecEvent.lift => (0, 0)

/-- The stored `joystickVector` after a sequence of joystick events,
starting from `{x: 0, y: 0}`. -/
def runVec (evs : List VecEvent) : ℝ × ℝ :=
  evs.foldl handleVec (0, 0)

end AppJS

namespace MainJS

/-- Configuration of a satellite in the `PLANETS` table of main.js. -/
structure SatConfig where
  name : String
  radius : ℚ
  distance : ℚ
  color : ℕ
  orbitSpeed : ℚ
  rotationSpeed : ℚ
deriving DecidableEq, Inhabited

/-- Configuration of a planet in the `PLANETS` table of main.js. -/
structure PlanetConfig where
  name : String
  radius : ℚ
  distance : ℚ
  color : ℕ
  orbitSpeed : ℚ
  rotationSpeed : ℚ
  satellites : List SatConfig
deriving DecidableEq, Inhabited

/-- The Moon entry nested inside the Earth entry of `PLANETS`
(main.js lines 49-58). -/
def moonConfig : SatConfig :=
  ⟨"Moon", 0.27, 2.2, 0xdddddd, 0.04, 0.01⟩

/-- The Earth entry of `PLANETS` (main.js lines 41-59). -/
def earthConfig : PlanetConfig :=
  ⟨"Earth", 1, 12, 0x2f78ff, 0.012, 0.02, [moonConfig]⟩

/-- The `PLANETS` static configuration table of main.js, lines 24-100. -/
def PLANETS : List PlanetConfig :=
  [ ⟨"Mercury", 0.383, 6, 0xb2b2b2, 0.02, 0.004, []⟩,
    ⟨"Venus", 0.95, 9, 0xeed4a0, 0.015, 0.0025, []⟩,
    earthConfig,
    ⟨"Mars", 0.53, 16, 0xff5c33, 0.01, 0.018, []⟩,
    ⟨"Jupiter", 11.2 * 0.3, 24, 0xf5d6a3, 0.005, 0.025, []⟩,
    ⟨"Saturn", 9.45 * 0.3, 32, 0xf8d8a0, 0.004, 0.022, []⟩,
    ⟨"Uranus", 4.0 * 0.3, 38, 0x66ccff, 0.0035, 0.018, []⟩,
    ⟨"Neptune", 3.9 * 0.3, 45, 0x3366ff, 0.003, 0.016, []⟩ ]

/-- Pivot orbit angle after `n` frames of
`obj.pivot.rotation.y += obj.orbitSpeed * deltaSeconds * 60`
(main.js line 251), each frame with the same elapsed-time delta `d` in
seconds, starting from angle `a`. -/
def renderAngleAfter (a s d : ℝ) : ℕ → ℝ
  | 0 => a
  | n + 1 => renderAngleAfter a s d n + s * d * 60

/-- Rotation of a point of 3-space about the y axis by angle `a`, as the
scene graph applies a pivot's `rotation.y`. -/
def rotY (a : ℝ) (v : ℝ × ℝ × ℝ) : ℝ × ℝ × ℝ :=
  (v.1 * Real.cos a + v.2.2 * Real.sin a,
   v.2.1,
   -(v.1 * Real.sin a) + v.2.2 * Real.cos a)

/-- World position of a satellite mesh in the nested-pivot scene graph of
`buildSolarSystem` (main.js lines 190-223): the satellite mesh sits at
`(ds, 0, 0)` inside its pivot, which is rotated by the satellite's orbit
angle `satA`, attached to the planet mesh, which is rotated by the planet's
self-rotation angle `selfA` and sits at `(dp, 0, 0)` inside the planet
pivot, which is rotated by the planet's orbit angle `parentA`. -/
def satWorldPos (dp ds parentA selfA satA : ℝ) : ℝ × ℝ × ℝ :=
  rotY parentA ((dp, 0, 0) + rotY selfA (rotY satA (ds, 0, 0)))

/-- The per-variant mutable state touched (or not) by the resize handler:
camera aspect ratio and renderer output size, together with the scene state
no resize handler touches — orbit angles, camera position and angle state,
and the stored input vector. -/
structure ViewState where
  aspect : ℝ
  rendererWidth : ℝ
  rendererHeight : ℝ
  orbitAngles : List ℝ
  cameraPosition : ℝ × ℝ × ℝ
  cameraAngles : ℝ × ℝ
  inputVector : ℝ × ℝ

/-- The resize handler shared by all three variants (main.js lines 267-271,
script.js lines 61-65, app.js lines 275-279): it sets the camera aspect to
`width / height` and the renderer output size to `(width, height)`, and
assigns nothing else. -/
def onResize (width height : ℝ) (s : ViewState) : ViewState :=
  { s with
    aspect := width / height,
    rendererWidth := width,
    rendererHeight := height }

end MainJS

end

/-! Helper lemmas shared by several claims. -/

/-- The clamp bound `pi / 2 - 0.1` of both joystick variants is positive. -/
lemma maxPitch_pos : 0 < ScriptJS.maxPitch := by
  have h := Real.pi_gt_three
  unfold ScriptJS.maxPitch
  linarith

/-- The clamp bound of the app.js variant is positive. -/
lemma maxTheta_pos : 0 < AppJS.maxTheta := by
  have h := Real.pi_gt_three
  unfold AppJS.maxTheta
  linarith

/-- Clamping to `[-m, m]` lands inside `[-m, m]` whenever `0 ≤ m`. -/
lemma abs_clamp_le {m : ℝ} (hm : 0 ≤ m) (x : ℝ) : |max (-m) (min m x)| ≤ m := by
  rw [abs_le]
  exact ⟨le_max_left _ _, max_le (by linarith) (min_le_left _ _)⟩

/-- Clamping to `[-m, m]` is the identity on values already inside. -/
lemma clamp_eq_self {m x : ℝ} (h : |x| ≤ m) : max (-m) (min m x) = x := by
  rw [abs_le] at h
  rw [min_eq_right h.2, max_eq_right h.1]

/-- The pitch bound is preserved by any number of camera steps of the
script.js variant, from any state already inside the bound. -/
lemma ScriptJS.abs_pitch_foldl_le (l : List (ℝ × ℝ)) (st : CamAngles)
    (h : |st.pitch| ≤ maxPitch) :
    |(l.foldl (fun s mv => stepCam mv s) st).pitch| ≤ maxPitch := by
  induction l generalizing st with
  | nil => simpa using h
  | cons mv l ih =>
      simp only [List.foldl_cons]
      exact ih _ (abs_clamp_le maxPitch_pos.le _)

/-- After any input sequence from the initial state, the script.js pitch is
inside the clamp bound. -/
lemma ScriptJS.abs_pitch_runCam_le (inputs : List (ℝ × ℝ)) :
    |(runCam inputs).pitch| ≤ maxPitch :=
  abs_pitch_foldl_le inputs initCamAngles
    (by rw [show initCamAngles.pitch = 0 from rfl, abs_zero]; exact maxPitch_pos.le)

/-- The theta bound is preserved by any number of camera updates of the
app.js variant, from any state already inside the bound. -/
lemma AppJS.abs_theta_foldl_le (l : List (ℝ × ℝ)) (st : CamSph)
    (h : |st.theta| ≤ maxTheta) :
    |(l.foldl (fun s v => updateCamera v s) st).theta| ≤ maxTheta := by
  induction l generalizing st with
  | nil => simpa using h
  | cons v l ih =>
      simp only [List.foldl_cons]
      exact ih _ (abs_clamp_le maxTheta_pos.le _)

/-- After any input sequence from the initial state, the app.js theta is
inside the clamp bound. -/
lemma AppJS.abs_theta_runCam_le (inputs : List (ℝ × ℝ)) :
    |(runCam inputs).theta| ≤ maxTheta :=
  abs_theta_foldl_le inputs initCamSph
    (by rw [show initCamSph.theta = 0 from rfl, abs_zero]; exact maxTheta_pos.le)

/-- A camera step of the script.js variant with zero joystick vector leaves
the yaw/pitch state unchanged, provided the pitch is inside the bound. -/
lemma ScriptJS.stepCam_zero (st : CamAngles) (h : |st.pitch| ≤ maxPitch) :
    stepCam (0, 0) st = st := by
  have hy : st.yaw - (0 : ℝ) * 0.05 = st.yaw := by ring
  have hp : st.pitch + (0 : ℝ) * 0.05 = st.pitch := by ring
  show (⟨st.yaw - 0 * 0.05, max (-maxPitch) (min maxPitch (st.pitch + 0 * 0.05))⟩ :
      CamAngles) = st
  rw [hy, hp, clamp_eq_self h]

/-- A camera update of the app.js variant with zero joystick vector leaves
the phi/theta state unchanged, provided theta is inside the bound. -/
lemma AppJS.updateCamera_zero (st : CamSph) (h : |st.theta| ≤ maxTheta) :
    updateCamera (0, 0) st = st := by
  have hy : st.phi - (0 : ℝ) * 0.05 = st.phi := by ring
  have hp : st.theta - (0 : ℝ) * 0.05 = st.theta := by ring
  show (⟨st.phi - 0 * 0.05, max (-maxTheta) (min maxTheta (st.theta - 0 * 0.05))⟩ :
      CamSph) = st
  rw [hy, hp, clamp_eq_self h]

/-- A point with spherical coordinates at radius `R ≥ 0` about the origin is
at Euclidean distance exactly `R` from the origin. -/
lemma dist_spherical (R θ φ : ℝ) (hR : 0 ≤ R) :
    distFromOrigin
      (R * Real.cos θ * Real.sin φ, R * Real.sin θ, R * Real.cos θ * Real.cos φ) = R := by
  have h1 := Real.sin_sq_add_cos_sq θ
  have h2 := Real.sin_sq_add_cos_sq φ
  have key : (R * Real.cos θ * Real.sin φ) ^ 2 + (R * Real.sin θ) ^ 2 +
      (R * Real.cos θ * Real.cos φ) ^ 2 = R ^ 2 := by
    linear_combination (R ^ 2 * Real.cos θ ^ 2) * h2 + R ^ 2 * h1
  show Real.sqrt ((R * Real.cos θ * Real.sin φ) ^ 2 + (R * Real.sin θ) ^ 2 +
      (R * Real.cos θ * Real.cos φ) ^ 2) = R
  rw [key, Real.sqrt_sq hR]

/-! The claims. -/

/-- C1: in both joystick variants, after every per-frame camera update —
for any input sequence, including adversarial ones of any length — the
polar angle (pitch in script.js, theta in app.js) never exceeds
`pi / 2 - 0.1` in absolute value, and in particular stays strictly inside
the open interval `(-pi / 2, pi / 2)`. -/
theorem claim_C1_polar_angle_clamped (inputs : List (ℝ × ℝ)) :
    (|(ScriptJS.runCam inputs).pitch| ≤ Real.pi / 2 - 0.1 ∧
      -(Real.pi / 2) < (ScriptJS.runCam inputs).pitch ∧
      (ScriptJS.runCam inputs).pitch < Real.pi / 2) ∧
    (|(AppJS.runCam inputs).theta| ≤ Real.pi / 2 - 0.1 ∧
      -(Real.pi / 2) < (AppJS.runCam inputs).theta ∧
      (AppJS.runCam inputs).theta < Real.pi / 2) := by
  have h1 : |(ScriptJS.runCam inputs).pitch| ≤ Real.pi / 2 - 0.1 :=
    ScriptJS.abs_pitch_runCam_le inputs
  have h2 : |(AppJS.runCam inputs).theta| ≤ Real.pi / 2 - 0.1 :=
    AppJS.abs_theta_runCam_le inputs
  have h1' := abs_le.mp h1
  have h2' := abs_le.mp h2
  exact ⟨⟨h1, by linarith [h1'.1], by linarith [h1'.2]⟩,
         ⟨h2, by linarith [h2'.1], by linarith [h2'.2]⟩⟩

/-- C2: in both joystick variants, a frame whose input vector is zero
leaves the camera state — and hence the recomputed camera position —
exactly as it was after the preceding frames: no drift under zero input. -/
theorem claim_C2_zero_input_idempotent (i : ℝ × ℝ) (inputs : List (ℝ × ℝ)) :
    ScriptJS.runCam ((i :: inputs) ++ [(0, 0)]) = ScriptJS.runCam (i :: inputs) ∧
    ScriptJS.camPos (ScriptJS.runCam ((i :: inputs) ++ [(0, 0)])) =
      ScriptJS.camPos (ScriptJS.runCam (i :: inputs)) ∧
    AppJS.runCam ((i :: inputs) ++ [(0, 0)]) = AppJS.runCam (i :: inputs) ∧
    AppJS.camPos (AppJS.runCam ((i :: inputs) ++ [(0, 0)])) =
      AppJS.camPos (AppJS.runCam (i :: inputs)) := by
  have hS : ScriptJS.runCam ((i :: inputs) ++ [(0, 0)]) = ScriptJS.runCam (i :: inputs) := by
    unfold ScriptJS.runCam
    rw [List.foldl_append]
    simp only [List.foldl_cons, List.foldl_nil]
    exact ScriptJS.stepCam_zero _ (ScriptJS.abs_pitch_runCam_le (i :: inputs))
  have hA : AppJS.runCam ((i :: inputs) ++ [(0, 0)]) = AppJS.runCam (i :: inputs) := by
    unfold AppJS.runCam
    rw [List.foldl_append]
    simp only [List.foldl_cons, List.foldl_nil]
    exact AppJS.updateCamera_zero _ (AppJS.abs_theta_runCam_le (i :: inputs))
  exact ⟨hS, by rw [hS], hA, by rw [hA]⟩

/-- C5: in the app.js spherical-orbit mode with sensitivity 0.05, one frame
of input `{x = 1, y = 0}` decreases phi by exactly 0.05, leaves theta
unchanged (theta being inside the clamp bound), and the recomputed camera
position sits at distance exactly `cameraDistance` from the origin. -/
theorem claim_C5_joystick_unit_x_step (φ θ : ℝ) (h : |θ| ≤ Real.pi / 2 - 0.1) :
    (AppJS.updateCamera (1, 0) ⟨φ, θ⟩).phi = φ - 0.05 ∧
    (AppJS.updateCamera (1, 0) ⟨φ, θ⟩).theta = θ ∧
    distFromOrigin (AppJS.camPos (AppJS.updateCamera (1, 0) ⟨φ, θ⟩)) =
      AppJS.cameraDistance := by
  have hθ : (AppJS.updateCamera (1, 0) ⟨φ, θ⟩).theta = θ := by
    show max (-AppJS.maxTheta) (min AppJS.maxTheta (θ - 0 * 0.05)) = θ
    rw [show θ - (0 : ℝ) * 0.05 = θ by ring]
    exact clamp_eq_self h
  refine ⟨?_, hθ, ?_⟩
  · show φ - 1 * 0.05 = φ - 0.05
    ring
  · exact dist_spherical 40 _ _ (by norm_num)

/-- Witness for C5 at the initial camera angles `phi = 0`, `theta = 0`. -/
theorem claim_C5_witness :
    (AppJS.updateCamera (1, 0) ⟨0, 0⟩).phi = 0 - 0.05 ∧
    (AppJS.updateCamera (1, 0) ⟨0, 0⟩).theta = 0 ∧
    distFromOrigin (AppJS.camPos (AppJS.updateCamera (1, 0) ⟨0, 0⟩)) =
      AppJS.cameraDistance :=
  claim_C5_joystick_unit_x_step 0 0
    (by rw [abs_zero]; have := Real.pi_gt_three; linarith)

/-- C9: in both joystick variants, the camera position computed by every
execution of the per-frame camera update lies at Euclidean distance exactly
equal to the fixed radius (30 in script.js, 40 in app.js) from the origin,
for every input vector and every incoming state; yet the initial camera
position `(0, 5, 30)` set before the first frame is not at distance 30, so
the first update snaps the camera onto the sphere. -/
theorem claim_C9_camera_on_sphere :
    distFromOrigin ScriptJS.initCamPos ≠ ScriptJS.camRadius ∧
    (∀ (mv : ℝ × ℝ) (st : ScriptJS.CamAngles),
        distFromOrigin (ScriptJS.camPos (ScriptJS.stepCam mv st)) = ScriptJS.camRadius) ∧
    (∀ (v : ℝ × ℝ) (st : AppJS.CamSph),
        distFromOrigin (AppJS.camPos (AppJS.updateCamera v st)) = AppJS.cameraDistance) := by
  refine ⟨?_, ?_, ?_⟩
  · have h900 : Real.sqrt 900 = 30 := by
      rw [show (900 : ℝ) = 30 ^ 2 by norm_num, Real.sqrt_sq (by norm_num : (0:ℝ) ≤ 30)]
    have hlt : Real.sqrt 900 < Real.sqrt 925 :=
      Real.sqrt_lt_sqrt (by norm_num) (by norm_num)
    have hval : distFromOrigin ScriptJS.initCamPos = Real.sqrt 925 := by
      show Real.sqrt ((0 : ℝ) ^ 2 + 5 ^ 2 + 30 ^ 2) = Real.sqrt 925
      norm_num
    have hC : ScriptJS.camRadius = 30 := rfl
    rw [hval, hC]
    intro heq
    rw [heq, h900] at hlt
    exact lt_irrefl _ hlt
  · intro mv st
    exact dist_spherical 30 _ _ (by norm_num)
  · intro v st
    exact dist_spherical 40 _ _ (by norm_num)

/-- Closed form of the delta-scaled angle recurrence of main.js. -/
lemma MainJS.renderAngleAfter_eq (a s d : ℝ) (n : ℕ) :
    renderAngleAfter a s d n = a + n * (s * d * 60) := by
  induction n with
  | zero => simp [renderAngleAfter]
  | succ n ih =>
      rw [renderAngleAfter, ih]
      push_cast
      ring

/-- The planar planet position of app.js is invariant under adding a full
turn to the orbit angle. -/
lemma AppJS.planetPosition_add_two_pi (r a : ℝ) :
    planetPosition r (a + 2 * Real.pi) = planetPosition r a := by
  unfold planetPosition
  rw [Real.cos_add_two_pi, Real.sin_add_two_pi]

/-- The pivot rotation of main.js is invariant under adding a full turn to
the pivot angle. -/
lemma MainJS.rotY_add_two_pi (a : ℝ) (v : ℝ × ℝ × ℝ) :
    rotY (a + 2 * Real.pi) v = rotY a v := by
  unfold rotY
  rw [Real.cos_add_two_pi, Real.sin_add_two_pi]

/-- C3: after `N` frames of the delta-scaled update of main.js, each with
elapsed-time delta `d` seconds and orbit speed `s`, the orbit angle equals
`a0 + N * s * d * 60` (normalization factor 60); and a body's position
depends on its orbit angle only modulo `2 * pi`, both for the explicit
position formula of app.js and for the pivot rotation of main.js. -/
theorem claim_C3_orbit_angle_after_n_frames (a0 s d : ℝ) (N : ℕ) :
    MainJS.renderAngleAfter a0 s d N = a0 + N * s * d * 60 ∧
    (∀ r a : ℝ, AppJS.planetPosition r (a + 2 * Real.pi) = AppJS.planetPosition r a) ∧
    (∀ (a : ℝ) (v : ℝ × ℝ × ℝ), MainJS.rotY (a + 2 * Real.pi) v = MainJS.rotY a v) := by
  refine ⟨?_, AppJS.planetPosition_add_two_pi, MainJS.rotY_add_two_pi⟩
  rw [MainJS.renderAngleAfter_eq]
  ring

/-- C4: one unscaled frame update of a body with orbit radius 12, orbit
speed 0.012 and orbit angle 0 yields orbit angle 0.012 and position
`(12 * cos 0.012, 0, 12 * sin 0.012)`; the y component is exactly 0, and
the nonzero components match the spec's decimal approximations. -/
theorem claim_C4_concrete_earth_step :
    AppJS.stepPlanet 12 0.012 0 =
      (0.012, (12 * Real.cos 0.012, 0, 12 * Real.sin 0.012)) ∧
    (AppJS.stepPlanet 12 0.012 0).2.2.1 = 0 ∧
    11.999 < 12 * Real.cos 0.012 ∧ 12 * Real.cos 0.012 < 12 ∧
    0.14399 < 12 * Real.sin 0.012 ∧ 12 * Real.sin 0.012 < 0.144 := by
  have h0 : (0 : ℝ) + 0.012 = 0.012 := by norm_num
  have hstep : AppJS.stepPlanet 12 0.012 0 =
      (0.012, (12 * Real.cos 0.012, 0, 12 * Real.sin 0.012)) := by
    unfold AppJS.stepPlanet AppJS.planetPosition
    rw [h0]
  have hlb : 1 - (0.012 : ℝ) ^ 2 / 2 ≤ Real.cos 0.012 :=
    Real.one_sub_sq_div_two_le_cos
  have hsinpos : 0 < Real.sin 0.012 :=
    Real.sin_pos_of_pos_of_lt_pi (by norm_num)
      (lt_trans (by norm_num) Real.pi_gt_three)
  have hcos2 : Real.cos 0.012 ^ 2 = 1 - Real.sin 0.012 ^ 2 := Real.cos_sq' 0.012
  have hcu : Real.cos 0.012 < 1 := by
    nlinarith [mul_pos hsinpos hsinpos]
  have hsl : (0.012 : ℝ) - 0.012 ^ 3 / 4 < Real.sin 0.012 :=
    Real.sin_gt_sub_cube (by norm_num) (by norm_num)
  have hsu : Real.sin 0.012 < 0.012 := Real.sin_lt (by norm_num)
  refine ⟨hstep, by rw [hstep], by nlinarith, by nlinarith, by nlinarith, by nlinarith⟩

/-- The x component of the satellite world position, written out. -/
lemma MainJS.satWorldPos_x (dp ds parentA selfA satA : ℝ) :
    (satWorldPos dp ds parentA selfA satA).1 =
      (dp + ((ds * Real.cos satA + 0 * Real.sin satA) * Real.cos selfA +
          (-(ds * Real.sin satA) + 0 * Real.cos satA) * Real.sin selfA)) * Real.cos parentA +
      (0 + (-((ds * Real.cos satA + 0 * Real.sin satA) * Real.sin selfA) +
          (-(ds * Real.sin satA) + 0 * Real.cos satA) * Real.cos selfA)) * Real.sin parentA :=
  rfl

/-- C6: the satellite world position is, by construction of the nested
pivots, the parent transform applied to the parent-local offset plus the
satellite's own rotated offset; and for the Earth-Moon configuration,
moving the parent orbit angle from 0 to `pi` while holding the satellite's
own orbit angle (and the planet's self-rotation angle) fixed changes the
satellite's absolute world position. -/
theorem claim_C6_satellite_compound_motion :
    (∀ parentA selfA satA : ℝ,
        MainJS.satWorldPos (MainJS.earthConfig.distance : ℝ)
            (MainJS.moonConfig.distance : ℝ) parentA selfA satA =
          MainJS.rotY parentA
            (((MainJS.earthConfig.distance : ℝ), 0, 0) +
              MainJS.rotY selfA
                (MainJS.rotY satA ((MainJS.moonConfig.distance : ℝ), 0, 0)))) ∧
    (∀ selfA satA : ℝ,
        MainJS.satWorldPos (MainJS.earthConfig.distance : ℝ)
            (MainJS.moonConfig.distance : ℝ) Real.pi selfA satA ≠
          MainJS.satWorldPos (MainJS.earthConfig.distance : ℝ)
            (MainJS.moonConfig.distance : ℝ) 0 selfA satA) := by
  have hE : ((MainJS.earthConfig.distance : ℚ) : ℝ) = 12 := by
    norm_num [MainJS.earthConfig]
  have hM : ((MainJS.moonConfig.distance : ℚ) : ℝ) = 2.2 := by
    norm_num [MainJS.moonConfig]
  refine ⟨fun _ _ _ => rfl, ?_⟩
  intro selfA satA heq
  have hx := congrArg Prod.fst heq
  rw [MainJS.satWorldPos_x, MainJS.satWorldPos_x, hE, hM,
    Real.cos_pi, Real.sin_pi, Real.cos_zero, Real.sin_zero] at hx
  have hcc : |Real.cos satA * Real.cos selfA| ≤ 1 := by
    rw [abs_mul]
    exact mul_le_one₀ (Real.abs_cos_le_one _) (abs_nonneg _) (Real.abs_cos_le_one _)
  have hss : |Real.sin satA * Real.sin selfA| ≤ 1 := by
    rw [abs_mul]
    exact mul_le_one₀ (Real.abs_sin_le_one _) (abs_nonneg _) (Real.abs_sin_le_one _)
  have hcc' := abs_le.mp hcc
  have hss' := abs_le.mp hss
  nlinarith [hcc'.1, hcc'.2, hss'.1, hss'.2]

/-- The input-vector bound is preserved by any number of script.js joystick
events whose move events carry a nonnegative raw distance. -/
lemma ScriptJS.abs_foldl_handleJoy_le (evs : List JoyEvent) (st : ℝ × ℝ)
    (hst : |st.1| ≤ 1 ∧ |st.2| ≤ 1)
    (hvalid : ∀ rad dist, JoyEvent.move rad dist ∈ evs → 0 ≤ dist) :
    |(evs.foldl handleJoy st).1| ≤ 1 ∧ |(evs.foldl handleJoy st).2| ≤ 1 := by
  induction evs generalizing st with
  | nil => simpa using hst
  | cons e l ih =>
      simp only [List.foldl_cons]
      refine ih _ ?_ (fun rad dist h => hvalid rad dist (List.mem_cons_of_mem _ h))
      cases e with
      | move rad dist =>
          have hd : 0 ≤ dist := hvalid rad dist (List.mem_cons_self _ _)
          have hd0 : 0 ≤ min (dist / 50) 1 :=
            le_min (div_nonneg hd (by norm_num)) zero_le_one
          have hd1 : min (dist / 50) 1 ≤ 1 := min_le_right _ _
          constructor
          · show |Real.cos rad * min (dist / 50) 1| ≤ 1
            rw [abs_mul, abs_of_nonneg hd0]
            exact mul_le_one₀ (Real.abs_cos_le_one _) hd0 hd1
          · show |Real.sin rad * min (dist / 50) 1| ≤ 1
            rw [abs_mul, abs_of_nonneg hd0]
            exact mul_le_one₀ (Real.abs_sin_le_one _) hd0 hd1
      | lift =>
          constructor <;> simp [handleJoy]

/-- The input-vector bound is preserved by any number of app.js joystick
events whose move events carry components inside `[-1, 1]`. -/
lemma AppJS.abs_foldl_handleVec_le (evs : List VecEvent) (st : ℝ × ℝ)
    (hst : |st.1| ≤ 1 ∧ |st.2| ≤ 1)
    (hvalid : ∀ vx vy, VecEvent.move vx vy ∈ evs → |vx| ≤ 1 ∧ |vy| ≤ 1) :
    |(evs.foldl handleVec st).1| ≤ 1 ∧ |(evs.foldl handleVec st).2| ≤ 1 := by
  induction evs generalizing st with
  | nil => simpa using hst
  | cons e l ih =>
      simp only [List.foldl_cons]
      refine ih _ ?_ (fun vx vy h => hvalid vx vy (List.mem_cons_of_mem _ h))
      cases e with
      | move vx vy => exact hvalid vx vy (List.mem_cons_self _ _)
      | lift => constructor <;> simp [handleVec]

/-- C7: in both joystick variants, after any sequence of move and release
events (move events carrying a nonnegative raw distance in script.js, and
vector components inside `[-1, 1]` in app.js), the stored input vector's
components lie in `[-1, 1]`; and a release event always resets the stored
vector to exactly `(0, 0)`. -/
theorem claim_C7_input_vector_invariant
    (evs : List ScriptJS.JoyEvent)
    (hvalid : ∀ rad dist, ScriptJS.JoyEvent.move rad dist ∈ evs → 0 ≤ dist)
    (evs2 : List AppJS.VecEvent)
    (hvalid2 : ∀ vx vy, AppJS.VecEvent.move vx vy ∈ evs2 → |vx| ≤ 1 ∧ |vy| ≤ 1) :
    (|(ScriptJS.runJoy evs).1| ≤ 1 ∧ |(ScriptJS.runJoy evs).2| ≤ 1) ∧
    ScriptJS.runJoy (evs ++ [ScriptJS.JoyEvent.lift]) = (0, 0) ∧
    (|(AppJS.runVec evs2).1| ≤ 1 ∧ |(AppJS.runVec evs2).2| ≤ 1) ∧
    AppJS.runVec (evs2 ++ [AppJS.VecEvent.lift]) = (0, 0) := by
  have h0 : |((0 : ℝ), (0 : ℝ)).1| ≤ 1 ∧ |((0 : ℝ), (0 : ℝ)).2| ≤ 1 := by
    constructor <;> simp
  refine ⟨ScriptJS.abs_foldl_handleJoy_le evs _ h0 hvalid, ?_,
          AppJS.abs_foldl_handleVec_le evs2 _ h0 hvalid2, ?_⟩
  · unfold ScriptJS.runJoy
    rw [List.foldl_append]
    simp only [List.foldl_cons, List.foldl_nil]
    rfl
  · unfold AppJS.runVec
    rw [List.foldl_append]
    simp only [List.foldl_cons, List.foldl_nil]
    rfl

/-- Witness for C7: one in-range move event in each variant, followed by
the release event. -/
theorem claim_C7_witness :
    (|(ScriptJS.runJoy [ScriptJS.JoyEvent.move 0 25]).1| ≤ 1 ∧
      |(ScriptJS.runJoy [ScriptJS.JoyEvent.move 0 25]).2| ≤ 1) ∧
    ScriptJS.runJoy ([ScriptJS.JoyEvent.move 0 25] ++ [ScriptJS.JoyEvent.lift]) = (0, 0) ∧
    (|(AppJS.runVec [AppJS.VecEvent.move 1 0]).1| ≤ 1 ∧
      |(AppJS.runVec [AppJS.VecEvent.move 1 0]).2| ≤ 1) ∧
    AppJS.runVec ([AppJS.VecEvent.move 1 0] ++ [AppJS.VecEvent.lift]) = (0, 0) :=
  claim_C7_input_vector_invariant [ScriptJS.JoyEvent.move 0 25]
    (by
      intro rad dist h
      rw [List.mem_singleton] at h
      injection h with h1 h2
      rw [h2]
      norm_num)
    [AppJS.VecEvent.move 1 0]
    (by
      intro vx vy h
      rw [List.mem_singleton] at h
      injection h with h1 h2
      rw [h1, h2]
      constructor <;> norm_num)

/-- C8: the resize handler, applied on a viewport change from 800x600 to
1600x900, sets the camera aspect ratio to `1600 / 900` and the renderer
output size to `(1600, 900)`, and leaves every piece of scene state —
orbit angles, camera position and angles, and the stored input vector —
unchanged. -/
theorem claim_C8_resize_effect (s : MainJS.ViewState)
    (hw : s.rendererWidth = 800) (hh : s.rendererHeight = 600) :
    (MainJS.onResize 1600 900 s).aspect = 1600 / 900 ∧
    (MainJS.onResize 1600 900 s).rendererWidth = 1600 ∧
    (MainJS.onResize 1600 900 s).rendererHeight = 900 ∧
    (MainJS.onResize 1600 900 s).orbitAngles = s.orbitAngles ∧
    (MainJS.onResize 1600 900 s).cameraPosition = s.cameraPosition ∧
    (MainJS.onResize 1600 900 s).cameraAngles = s.cameraAngles ∧
    (MainJS.onResize 1600 900 s).inputVector = s.inputVector :=
  ⟨rfl, rfl, rfl, rfl, rfl, rfl, rfl⟩

/-- Witness for C8 at a concrete 800x600 view state. -/
theorem claim_C8_witness :
    (MainJS.onResize 1600 900 ⟨800 / 600, 800, 600, [0.5], (0, 20, 80), (0, 0), (0, 0)⟩).aspect =
      1600 / 900 ∧
    (MainJS.onResize 1600 900
        ⟨800 / 600, 800, 600, [0.5], (0, 20, 80), (0, 0), (0, 0)⟩).rendererWidth = 1600 ∧
    (MainJS.onResize 1600 900
        ⟨800 / 600, 800, 600, [0.5], (0, 20, 80), (0, 0), (0, 0)⟩).rendererHeight = 900 ∧
    (MainJS.onResize 1600 900
        ⟨800 / 600, 800, 600, [0.5], (0, 20, 80), (0, 0), (0, 0)⟩).orbitAngles =
      (⟨800 / 600, 800, 600, [0.5], (0, 20, 80), (0, 0), (0, 0)⟩ : MainJS.ViewState).orbitAngles ∧
    (MainJS.onResize 1600 900
        ⟨800 / 600, 800, 600, [0.5], (0, 20, 80), (0, 0), (0, 0)⟩).cameraPosition =
      (⟨800 / 600, 800, 600, [0.5], (0, 20, 80), (0, 0), (0, 0)⟩ :
        MainJS.ViewState).cameraPosition ∧
    (MainJS.onResize 1600 900
        ⟨800 / 600, 800, 600, [0.5], (0, 20, 80), (0, 0), (0, 0)⟩).cameraAngles =
      (⟨800 / 600, 800, 600, [0.5], (0, 20, 80), (0, 0), (0, 0)⟩ : MainJS.ViewState).cameraAngles ∧
    (MainJS.onResize 1600 900
        ⟨800 / 600, 800, 600, [0.5], (0, 20, 80), (0, 0), (0, 0)⟩).inputVector =
      (⟨800 / 600, 800, 600, [0.5], (0, 20, 80), (0, 0), (0, 0)⟩ : MainJS.ViewState).inputVector :=
  claim_C8_resize_effect ⟨800 / 600, 800, 600, [0.5], (0, 20, 80), (0, 0), (0, 0)⟩ rfl rfl

/-- Closed form of the per-frame angle increment of script.js. -/
lemma ScriptJS.orbitAngleAfter_eq (a s : ℝ) (n : ℕ) :
    orbitAngleAfter a s n = a + n * s := by
  induction n with
  | zero => simp [orbitAngleAfter]
  | succ n ih =>
      rw [orbitAngleAfter, ih]
      push_cast
      ring

/-- Closed form of the per-frame angle increment of app.js. -/
lemma AppJS.planetAngleAfter_eq (a s : ℝ) (n : ℕ) :
    planetAngleAfter a s n = a + n * s := by
  induction n with
  | zero => simp [planetAngleAfter]
  | succ n ih =>
      rw [planetAngleAfter, ih]
      push_cast
      ring

/-- C10: every orbit speed of every static configuration table (script.js
`planetsData`, app.js `orbitData`, main.js `PLANETS` including satellites)
is strictly positive, so in the per-frame variants every planet's orbit
angle is strictly monotonically increasing over frames: no planet ever
halts or reverses. -/
theorem claim_C10_speeds_positive_angles_increasing :
    (∀ p ∈ ScriptJS.planetsData, 0 < p.speed) ∧
    (∀ p ∈ AppJS.orbitData, 0 < p.speed) ∧
    (∀ p ∈ MainJS.PLANETS, 0 < p.orbitSpeed) ∧
    (∀ p ∈ MainJS.PLANETS, ∀ sat ∈ p.satellites, 0 < sat.orbitSpeed) ∧
    (∀ p ∈ ScriptJS.planetsData, ∀ (a : ℝ) (n m : ℕ), n < m →
        ScriptJS.orbitAngleAfter a (p.speed : ℝ) n <
          ScriptJS.orbitAngleAfter a (p.speed : ℝ) m) ∧
    (∀ p ∈ AppJS.orbitData, ∀ (a : ℝ) (n m : ℕ), n < m →
        AppJS.planetAngleAfter a (p.speed : ℝ) n <
          AppJS.planetAngleAfter a (p.speed : ℝ) m) := by
  have hS : ∀ p ∈ ScriptJS.planetsData, 0 < p.speed := by
    intro p hp
    fin_cases hp <;> norm_num
  have hA : ∀ p ∈ AppJS.orbitData, 0 < p.speed := by
    intro p hp
    fin_cases hp <;> norm_num
  refine ⟨hS, hA, ?_, ?_, ?_, ?_⟩
  · intro p hp
    fin_cases hp <;> norm_num [MainJS.earthConfig]
  · intro p hp sat hs
    fin_cases hp <;> simp only [MainJS.earthConfig, List.mem_singleton] at hs
    all_goals first
      | exact absurd hs (List.not_mem_nil _)
      | (subst hs; norm_num [MainJS.moonConfig])
  · intro p hp a n m hnm
    have hpos : (0 : ℝ) < (p.speed : ℝ) := by
      exact_mod_cast hS p hp
    rw [ScriptJS.orbitAngleAfter_eq, ScriptJS.orbitAngleAfter_eq]
    have hn : (n : ℝ) < m := Nat.cast_lt.mpr hnm
    nlinarith
  · intro p hp a n m hnm
    have hpos : (0 : ℝ) < (p.speed : ℝ) := by
      exact_mod_cast hA p hp
    rw [AppJS.planetAngleAfter_eq, AppJS.planetAngleAfter_eq]
    have hn : (n : ℝ) < m := Nat.cast_lt.mpr hnm
    nlinarith

/-- Witness for C10 at the first row of the script.js table: Mercury's
speed is positive and its pivot angle strictly grows from frame 0 to
frame 5. -/
theorem claim_C10_witness :
    (0 : ℚ) < (⟨4, 0.3, 0x888888, 0.02⟩ : ScriptJS.PlanetData).speed ∧
    ScriptJS.orbitAngleAfter 0 ((⟨4, 0.3, 0x888888, 0.02⟩ : ScriptJS.PlanetData).speed : ℝ) 0 <
      ScriptJS.orbitAngleAfter 0
        ((⟨4, 0.3, 0x888888, 0.02⟩ : ScriptJS.PlanetData).speed : ℝ) 5 := by
  have hmem : (⟨4, 0.3, 0x888888, 0.02⟩ : ScriptJS.PlanetData) ∈ ScriptJS.planetsData := by
    unfold ScriptJS.planetsData
    exact List.mem_cons_self _ _
  exact ⟨claim_C10_speeds_positive_angles_increasing.1 _ hmem,
    claim_C10_speeds_positive_angles_increasing.2.2.2.2.1 _ hmem 0 0 5 (by norm_num)⟩

end SolarSpec
